import Mathlib

/-!
Shallow embedding of `scrap_table.py` (an AWS Lambda that fetches recent
seismic events from an ArcGIS feature service and reconciles them into a
DynamoDB table), together with theorems settling the specification claims.

Conventions of the embedding:
* Python/JSON values are modelled by `PyVal`.  A Python float is carried by
  its `repr` string (the shortest decimal form, which is the only aspect of
  a float the source ever uses: `str(x)`, `Decimal(str(x))` and truthiness).
  A `decimal.Decimal` is carried by the exact rational number it denotes.
* Machine integers are `Int`; no overflow is possible in the source paths
  modelled here (Python integers are unbounded).
* Fallible operations return `Except String` / `Option`.
* The HTTP transport, boto3 and `uuid.uuid4` are external collaborators:
  the response JSON, an injected store failure, and a stream of fresh
  tokens are passed in explicitly.
-/

set_option maxHeartbeats 1000000

namespace ScrapTable

/-- Fuel-carrying digit rendering (the fuel makes the recursion structural
so that the kernel can evaluate it; `n + 1` units always suffice since the
value shrinks by a factor of 10 each step). -/
def natToCharsAux : Nat → Nat → List Char
  | 0, _ => []
  | fuel + 1, n =>
    if n < 10 then [Char.ofNat (48 + n)]
    else natToCharsAux fuel (n / 10) ++ [Char.ofNat (48 + n % 10)]

/-- Decimal digit characters of a natural number, most significant digit
first.  This is the decimal rendering that Python `str()` applies to a
non-negative integer. -/
def natToChars (n : Nat) : List Char := natToCharsAux (n + 1) n

/-- Python `str()` of a non-negative integer. -/
def natToString (n : Nat) : String := String.mk (natToChars n)

/-- Python `str()` of an integer. -/
def intToString (i : Int) : String :=
  if i < 0 then "-" ++ natToString i.natAbs else natToString i.natAbs

/-- Powers of ten over `Int`, by structural recursion (kernel-evaluable). -/
def pow10 : Nat → Int
  | 0 => 1
  | k + 1 => 10 * pow10 k

/-- An exact decimal number `mant / 10 ^ exp`: the model of a
`decimal.Decimal` value (trailing-zero information, irrelevant to every
modelled code path, is not tracked). -/
structure DecVal where
  mant : Int
  exp : Nat

/-- The exact rational a `DecVal` denotes. -/
def DecVal.toRat (d : DecVal) : ℚ := (d.mant : ℚ) / (10 : ℚ) ^ d.exp

/-- Division by `10 ^ k`, exactly. -/
def DecVal.divPow10 (d : DecVal) (k : Nat) : DecVal := ⟨d.mant, d.exp + k⟩

/-- Model of the Python/JSON values handled by `scrap_table.py`.  `float`
carries the repr string of the float; `dec` carries the exact decimal
denoted by a `decimal.Decimal`. -/
inductive PyVal where
  | none : PyVal
  | bool : Bool → PyVal
  | int : Int → PyVal
  | float : String → PyVal
  | str : String → PyVal
  | list : List PyVal → PyVal
  | dict : List (String × PyVal) → PyVal
  | dec : DecVal → PyVal

/-- Python `x is None`. -/
def isNone : PyVal → Bool
  | .none => true
  | _ => false

/-- Python `x == ""` for the values reaching the lat/lon comparison: only
the empty string compares equal to `""`. -/
def isEmptyStr : PyVal → Bool
  | .str s => s == ""
  | _ => false

/-- Value of a decimal digit character. -/
def digitVal (c : Char) : Option Nat :=
  if 48 ≤ c.toNat ∧ c.toNat ≤ 57 then some (c.toNat - 48) else none

/-- Accumulating read of a digit string. -/
def digitsValCore : List Char → Nat → Option Nat
  | [], acc => some acc
  | c :: cs, acc =>
    match digitVal c with
    | some d => digitsValCore cs (10 * acc + d)
    | Option.none => Option.none

/-- Value of a non-empty all-digit character list, `none` otherwise. -/
def parseNatDigits : List Char → Option Nat
  | [] => Option.none
  | cs => digitsValCore cs 0

/-- Split a character list at the first `e`/`E` (exponent marker of a
decimal literal). -/
def splitAtExp : List Char → List Char × Option (List Char)
  | [] => ([], Option.none)
  | c :: cs =>
    if c = 'e' ∨ c = 'E' then ([], some cs)
    else
      let p := splitAtExp cs
      (c :: p.1, p.2)

/-- Split a character list at the first dot. -/
def splitAtDot : List Char → List Char × Option (List Char)
  | [] => ([], Option.none)
  | c :: cs =>
    if c = '.' then ([], some cs)
    else
      let p := splitAtDot cs
      (c :: p.1, p.2)

/-- Model of the `decimal.Decimal(s)` constructor on the string forms that
occur here: an optional sign, a digit string with an optional fractional
part, and an optional exponent.  Returns the exact rational denoted, or
`none` when the string is not a decimal literal (then the constructor
raises `InvalidOperation`; e.g. on `str(True)`).  The special forms
`Infinity`/`NaN`, whitespace and underscores never arise from `str()` of a
finite int/float and are not modelled. -/
def decimalParse (s : String) : Option DecVal :=
  let cs0 := s.toList
  let sc : Int × List Char :=
    match cs0 with
    | '-' :: r => (-1, r)
    | '+' :: r => (1, r)
    | r => (1, r)
  let mes := splitAtExp sc.2
  let eo : Option Int :=
    match mes.2 with
    | Option.none => some 0
    | some ecs =>
      match ecs with
      | '-' :: r => (parseNatDigits r).map (fun n => -(n : Int))
      | '+' :: r => (parseNatDigits r).map (fun n => (n : Int))
      | r => (parseNatDigits r).map (fun n => (n : Int))
  let ifp := splitAtDot mes.1
  let ip := ifp.1
  let fp := (ifp.2).getD []
  if ip = [] ∧ fp = [] then Option.none
  else
    match (if ip = [] then some 0 else parseNatDigits ip),
          (if fp = [] then some 0 else parseNatDigits fp), eo with
    | some iv, some fv, some e =>
      let m0 : Int := sc.1 * ((iv : Int) * pow10 fp.length + (fv : Int))
      let exp10 : Int := e - (fp.length : Int)
      some (if 0 ≤ exp10 then ⟨m0 * pow10 exp10.toNat, 0⟩ else ⟨m0, (-exp10).toNat⟩)
    | _, _, _ => Option.none

/-- Python truthiness of a `PyVal` (`bool(x)`).  A float is falsy exactly
when its repr denotes zero. -/
def pyTruthy : PyVal → Bool
  | .none => false
  | .bool b => b
  | .int n => decide (n ≠ 0)
  | .float s =>
    match decimalParse s with
    | some d => decide (d.mant ≠ 0)
    | Option.none => true
  | .str s => decide (s ≠ "")
  | .list xs => !xs.isEmpty
  | .dict kvs => !kvs.isEmpty
  | .dec d => decide (d.mant ≠ 0)

mutual

/-- Python `repr()` of a value (as far as the embedding needs it: only its
use inside `str()` of containers matters, and only non-emptiness of the
result is ever appealed to).  String escaping inside repr and the exact
repr of a `Decimal` are immaterial to the modelled code paths, which never
apply `str` to a container holding exotic strings or to a `Decimal`. -/
def pyRepr : PyVal → String
  | .none => "None"
  | .bool true => "True"
  | .bool false => "False"
  | .int n => intToString n
  | .float s => s
  | .str s => "\x27" ++ s ++ "\x27"
  | .list xs => "[" ++ pyReprList xs ++ "]"
  | .dict kvs => "\x7b" ++ pyReprKVs kvs ++ "\x7d"
  | .dec d => "Decimal(\x27" ++ intToString d.mant ++ "/" ++ natToString d.exp ++ "\x27)"

/-- Comma-joined reprs of a list of values. -/
def pyReprList : List PyVal → String
  | [] => ""
  | [v] => pyRepr v
  | v :: vs => pyRepr v ++ ", " ++ pyReprList vs

/-- Comma-joined reprs of the key/value pairs of a dict. -/
def pyReprKVs : List (String × PyVal) → String
  | [] => ""
  | [(k, v)] => "\x27" ++ k ++ "\x27: " ++ pyRepr v
  | (k, v) :: r => "\x27" ++ k ++ "\x27: " ++ pyRepr v ++ ", " ++ pyReprKVs r

end

/-- Python `str()` of a value. -/
def pyStr : PyVal → String
  | .str s => s
  | v => pyRepr v

/-- Python `a or b`. -/
def pyOr (a b : PyVal) : PyVal := if pyTruthy a then a else b

/-- Microseconds in a day. -/
def DAYU : Int := 86400000000

/-- `datetime.min` (0001-01-01T00:00:00) in microseconds since the epoch. -/
def minMicro : Int := -719162 * DAYU

/-- `datetime.max` (9999-12-31T23:59:59.999999) in microseconds since the
epoch. -/
def maxMicro : Int := 2932896 * DAYU + (DAYU - 1)

/-- Round `a / b` (with `b > 0`) to the nearest integer, ties to even (the
rounding CPython applies to the fractional seconds in
`datetime.utcfromtimestamp`). -/
def roundHalfEvenFrac (a b : Int) : Int :=
  let f := a.fdiv b
  let r2 := 2 * (a - f * b)
  if r2 < b then f
  else if b < r2 then f + 1
  else if f % 2 = 0 then f else f + 1

/-- Gregorian (year, month, day) of a day count relative to 1970-01-01
(standard civil-from-days conversion, as performed inside `datetime`). -/
def civilFromDays (day : Int) : Int × Int × Int :=
  let z := day + 719468
  let era := (if 0 ≤ z then z else z - 146096).ediv 146097
  let doe := z - era * 146097
  let yoe := (doe - doe.ediv 1460 + doe.ediv 36524 - doe.ediv 146096).ediv 365
  let y := yoe + era * 400
  let doy := doe - (365 * yoe + yoe.ediv 4 - yoe.ediv 100)
  let mp := (5 * doy + 2).ediv 153
  let dd := doy - (153 * mp + 2).ediv 5 + 1
  let mo := mp + (if mp < 10 then 3 else -9)
  (y + (if mo ≤ 2 then 1 else 0), mo, dd)

/-- Zero-padded decimal rendering of a non-negative integer to width `w`. -/
def pad (w : Nat) (n : Int) : String :=
  let s := natToString n.natAbs
  String.mk (List.replicate (w - s.length) '0') ++ s

/-- `datetime.isoformat()` of the aware datetime that sits `u` microseconds
after the epoch in the fixed UTC-5 zone: microseconds are printed as a
6-digit fraction only when non-zero, and the offset prints as `-05:00`. -/
def isoOfMicro (u : Int) : String :=
  let d := u.ediv DAYU
  let rem := u.emod DAYU
  let ymd := civilFromDays d
  let secs := rem.ediv 1000000
  let us := rem.emod 1000000
  pad 4 ymd.1 ++ "-" ++ pad 2 ymd.2.1 ++ "-" ++ pad 2 ymd.2.2 ++ "T" ++
    pad 2 (secs.ediv 3600) ++ ":" ++ pad 2 ((secs.ediv 60).emod 60) ++ ":" ++
    pad 2 (secs.emod 60) ++ (if us = 0 then "" else "." ++ pad 6 us) ++ "-05:00"

/-- Model of
`datetime.utcfromtimestamp(t).replace(tzinfo=utc).astimezone(utc-5).isoformat()`
for an exact decimal timestamp `t` in seconds: `none` when the conversion
raises (timestamp outside the `datetime` year range 1..9999, either before
or after the shift to UTC-5).  Arithmetic is exact; the float rounding of
CPython differs only below a microsecond for every timestamp the claims
exercise. -/
def timestampToIsoUtcMinus5 (t : DecVal) : Option String :=
  let u := roundHalfEvenFrac (t.mant * 1000000) (pow10 t.exp)
  if u < minMicro ∨ maxMicro < u then Option.none
  else
    let u2 := u - 5 * 3600 * 1000000
    if u2 < minMicro then Option.none else some (isoOfMicro u2)

/-- Model of `parse_date` (scrap_table.py lines 35-45): `None` maps to
`None`; an int/float/bool (Python `isinstance(val, (int, float))` counts
`bool` as int) is divided by 1000 and converted to a UTC-5 ISO string,
falling back to `str(val)` when the datetime conversion raises; everything
else maps to `str(val)`. -/
def parse_date : PyVal → Option String
  | .none => Option.none
  | .bool b =>
    some ((timestampToIsoUtcMinus5 ⟨if b then 1 else 0, 3⟩).getD (pyStr (.bool b)))
  | .int n => some ((timestampToIsoUtcMinus5 ⟨n, 3⟩).getD (intToString n))
  | .float s =>
    some
      (match decimalParse s with
      | some d => (timestampToIsoUtcMinus5 (d.divPow10 3)).getD s
      | Option.none => s)
  | v => some (pyStr v)

/-- Python `d.get(k, default)` on a dict carried as a key/value list. -/
def dGetD (kvs : List (String × PyVal)) (k : String) (d : PyVal) : PyVal :=
  match kvs.lookup k with
  | some v => v
  | Option.none => d

/-- Python `d.get(k)` (default `None`). -/
def dGet (kvs : List (String × PyVal)) (k : String) : PyVal := dGetD kvs k .none

/-- Key/value pairs of a dict value; `[]` otherwise.  The modelled code
only reaches the non-dict case for falsy values (the source would raise
`AttributeError` on a truthy non-dict; `validResponse` excludes that). -/
def asKVs : PyVal → List (String × PyVal)
  | .dict kvs => kvs
  | _ => []

/-- Elements of a list value; `[]` otherwise (same caveat as `asKVs`). -/
def asList : PyVal → List PyVal
  | .list xs => xs
  | _ => []

/-- The attribute mapping of a feature:
`feat.get("properties") or feat.get("attributes") or {}` (scrap_table.py
line 62). -/
def attrsOf (feat : PyVal) : List (String × PyVal) :=
  asKVs (pyOr (dGet (asKVs feat) "properties") (pyOr (dGet (asKVs feat) "attributes") (.dict [])))

/-- The coordinate list of a feature:
`(feat.get("geometry") or {}).get("coordinates") or []` (lines 63-64). -/
def coordsOf (feat : PyVal) : List PyVal :=
  asList (pyOr (dGet (asKVs (pyOr (dGet (asKVs feat) "geometry") (.dict []))) "coordinates") (.list []))

/-- The canonical record built per feature (the dict literal at
scrap_table.py lines 73-86); all fields except `raw` are strings. -/
structure Item where
  id : String
  referencia : String
  fechaevento : String
  fecha : String
  hora : String
  magnitud : String
  lat : String
  lon : String
  profundidad : String
  raw : List (String × PyVal)

/-- The DynamoDB item (Python dict) corresponding to a canonical record,
with the keys in source order. -/
def Item.toPyVal (it : Item) : PyVal :=
  .dict [("id", .str it.id), ("referencia", .str it.referencia),
    ("fechaevento", .str it.fechaevento), ("fecha", .str it.fecha),
    ("hora", .str it.hora), ("magnitud", .str it.magnitud),
    ("lat", .str it.lat), ("lon", .str it.lon),
    ("profundidad", .str it.profundidad), ("raw", .dict it.raw)]

/-- The per-feature body of the loop in `fetch_latest_sismos`
(scrap_table.py lines 61-87).  `fresh` is `str(uuid.uuid4())`. -/
def featureToItem (fresh : String) (feat : PyVal) : Item :=
  let attrs := attrsOf feat
  let coords := coordsOf feat
  let lonV : PyVal :=
    match coords with
    | c0 :: _ => c0
    | [] => pyOr (dGet attrs "lon") (.str "")
  let latV : PyVal :=
    match coords with
    | _ :: c1 :: _ => c1
    | _ => pyOr (dGet attrs "lat") (.str "")
  let fechaRaw := pyOr (dGet attrs "fechaevento") (dGet attrs "FECHAEVENTO")
  let idV := pyOr (dGet attrs "code")
    (pyOr (dGet attrs "objectid") (pyOr (dGet attrs "OBJECTID") (.str fresh)))
  { id := pyStr idV
    referencia := pyStr (pyOr (dGet attrs "ref") (pyOr (dGet attrs "referencia") (.str "")))
    fechaevento := (parse_date fechaRaw).getD ""
    fecha := pyStr (pyOr (dGet attrs "fecha") (.str ""))
    hora := pyStr (pyOr (dGet attrs "hora") (.str ""))
    magnitud := pyStr (pyOr (dGet attrs "magnitud") (pyOr (dGet attrs "mag") (.str "")))
    lat := if isEmptyStr latV then "" else pyStr latV
    lon := if isEmptyStr lonV then "" else pyStr lonV
    profundidad := pyStr (pyOr (dGet attrs "profundidad") (pyOr (dGet attrs "prof") (.str "")))
    raw := attrs.map (fun kv => (kv.1, if isNone kv.2 then .str "" else kv.2)) }

/-- The features of the response: `data.get("features", []) or []`
(line 59). -/
def featuresOf (data : PyVal) : List PyVal :=
  asList (pyOr (dGetD (asKVs data) "features" (.list [])) (.list []))

/-- The fetch loop, mapping each feature in order; the index feeds the
fresh-token supply standing in for `uuid.uuid4()`. -/
def mapIdx (fresh : Nat → String) : Nat → List PyVal → List Item
  | _, [] => []
  | i, f :: fs => featureToItem (fresh i) f :: mapIdx fresh (i + 1) fs

/-- The query parameters `fetch_latest_sismos` sends (lines 49-55). -/
structure QueryParams where
  whereClause : String
  outFields : String
  orderByFields : String
  resultRecordCount : Int
  fmt : String

/-- The concrete parameter dict of the single outbound request. -/
def requestParams (limit : Int) : QueryParams :=
  { whereClause := "1=1", outFields := "*", orderByFields := "fechaevento DESC",
    resultRecordCount := limit, fmt := "geojson" }

/-- Model of `fetch_latest_sismos(limit)` applied to a successfully decoded
response body `data` (lines 48-88).  `limit` reaches only the request
parameters (`requestParams`); the mapping loop itself never consults it. -/
def fetch_latest_sismos (limit : Int) (fresh : Nat → String) (data : PyVal) : List Item :=
  let _params := requestParams limit
  mapIdx fresh 0 (featuresOf data)

mutual

/-- Well-formedness of the embedding of a JSON-decoded value: every float
leaf carries a parseable repr string (true of every real float repr). -/
def wfFloats : PyVal → Bool
  | .float s => (decimalParse s).isSome
  | .list xs => wfFloatsList xs
  | .dict kvs => wfFloatsKVs kvs
  | _ => true

/-- `wfFloats` over a list of values. -/
def wfFloatsList : List PyVal → Bool
  | [] => true
  | v :: vs => wfFloats v && wfFloatsList vs

/-- `wfFloats` over dict entries. -/
def wfFloatsKVs : List (String × PyVal) → Bool
  | [] => true
  | (_, v) :: r => wfFloats v && wfFloatsKVs r

end

mutual

/-- No boolean leaf anywhere in the value. -/
def noBool : PyVal → Bool
  | .bool _ => false
  | .list xs => noBoolList xs
  | .dict kvs => noBoolKVs kvs
  | _ => true

/-- `noBool` over a list of values. -/
def noBoolList : List PyVal → Bool
  | [] => true
  | v :: vs => noBool v && noBoolList vs

/-- `noBool` over dict entries. -/
def noBoolKVs : List (String × PyVal) → Bool
  | [] => true
  | (_, v) :: r => noBool v && noBoolKVs r

end

/-- Falsy or a dict. -/
def dictOrFalsy (v : PyVal) : Bool := !pyTruthy v || (match v with | .dict _ => true | _ => false)

/-- Falsy or a list. -/
def listOrFalsy (v : PyVal) : Bool := !pyTruthy v || (match v with | .list _ => true | _ => false)

/-- A feature shaped so the Python loop body runs without raising: the
feature is a dict, its properties/attributes/geometry are dicts when
truthy, and the geometry coordinates are a list when truthy. -/
def validFeature (f : PyVal) : Bool :=
  (match f with | .dict _ => true | _ => false) &&
    dictOrFalsy (dGet (asKVs f) "properties") &&
    dictOrFalsy (dGet (asKVs f) "attributes") &&
    dictOrFalsy (dGet (asKVs f) "geometry") &&
    listOrFalsy (dGet (asKVs (pyOr (dGet (asKVs f) "geometry") (.dict []))) "coordinates")

/-- A feature-service response body on which the source code completes the
mapping loop without raising: a dict whose features value is a list (or
falsy), with every feature valid, and every float leaf a real float. -/
def validResponse (data : PyVal) : Bool :=
  (match data with | .dict _ => true | _ => false) &&
    listOrFalsy (dGetD (asKVs data) "features" (.list [])) &&
    (featuresOf data).all validFeature && wfFloats data

/-- The DynamoDB table, keyed by the string partition key `id`. -/
abbrev Store := List (String × PyVal)

/-- Effect of `batch.delete_item(Key={"id": k})`. -/
def storeDelete (st : Store) (k : String) : Store := st.filter (fun p => p.1 != k)

/-- Effect of a DynamoDB put: replace the item with the same key in place,
or append a new one. -/
def storePut : Store → String → PyVal → Store
  | [], k, v => [(k, v)]
  | (k0, v0) :: t, k, v => if k0 = k then (k, v) :: t else (k0, v0) :: storePut t k v

/-- The scan loop with structural fuel; each round consumes a page of at
most `psz + 1` items, so `st.length` rounds always suffice. -/
def scanAux (psz : Nat) : Nat → Store → List String
  | _, [] => []
  | 0, _ :: _ => []
  | fuel + 1, a :: t =>
    ((a :: t).take (psz + 1)).map Prod.fst ++ scanAux psz fuel ((a :: t).drop (psz + 1))

/-- Model of `scan_all_ids` (scrap_table.py lines 91-101): the store hands
back pages of at most `psz + 1` items with a continuation token while more
remain, and the loop follows the token until exhausted.  Every stored item
carries its key as attribute `id`, which the projection returns. -/
def scan_all_ids (psz : Nat) (st : Store) : List String :=
  scanAux psz st.length st

/-- Model of `clear_table_by_ids` (lines 104-109): batched deletes of every
listed id (the early return on `[]` coincides with the empty fold). -/
def clear_table_by_ids (st : Store) (ids : List String) : Store :=
  ids.foldl storeDelete st

mutual

/-- Model of `convert_numbers` (lines 112-124).  Dicts and lists recurse;
ints and floats (and bools, which Python `isinstance(_, int)` includes)
become `Decimal(str(obj))`, which raises `InvalidOperation` when the
string form is not a decimal literal; everything else passes through.  For
an int, `Decimal(str(n))` is exactly `n`. -/
def convert_numbers : PyVal → Except String PyVal
  | .dict kvs =>
    match convertKVs kvs with
    | .ok l => .ok (.dict l)
    | .error e => .error e
  | .list xs =>
    match convertList xs with
    | .ok l => .ok (.list l)
    | .error e => .error e
  | .bool b =>
    match decimalParse (pyStr (.bool b)) with
    | some d => .ok (.dec d)
    | Option.none => .error ("InvalidOperation: " ++ pyStr (.bool b))
  | .int n => .ok (.dec ⟨n, 0⟩)
  | .float s =>
    match decimalParse s with
    | some d => .ok (.dec d)
    | Option.none => .error ("InvalidOperation: " ++ s)
  | v => .ok v

/-- `convert_numbers` over list elements, failing at the first error. -/
def convertList : List PyVal → Except String (List PyVal)
  | [] => .ok []
  | v :: vs =>
    match convert_numbers v, convertList vs with
    | .ok w, .ok l => .ok (w :: l)
    | .error e, _ => .error e
    | _, .error e => .error e

/-- `convert_numbers` over dict values, failing at the first error. -/
def convertKVs : List (String × PyVal) → Except String (List (String × PyVal))
  | [] => .ok []
  | (k, v) :: r =>
    match convert_numbers v, convertKVs r with
    | .ok w, .ok l => .ok ((k, w) :: l)
    | .error e, _ => .error e
    | _, .error e => .error e

end

/-- The partition-key value of an item about to be put; a missing or
non-string `id` makes DynamoDB reject the write. -/
def itemKey : PyVal → Except String String
  | .dict kvs =>
    match kvs.lookup "id" with
    | some (.str s) => .ok s
    | _ => .error "ValidationException: missing string key id"
  | _ => .error "ValidationException: item is not a map"

/-- Model of `upsert_items` (lines 127-133): convert and put each record in
order, stopping at the first raised error. -/
def upsert_items : Store → List Item → Except String Store
  | st, [] => .ok st
  | st, it :: rest =>
    match convert_numbers it.toPyVal with
    | .error e => .error e
    | .ok c =>
      match itemKey c with
      | .error e => .error e
      | .ok k => upsert_items (storePut st k c) rest

/-- Outcome of the fetch step as the `try` in `lambda_handler` sees it:
`httpError` is `requests.HTTPError` from `raise_for_status` (non-success
HTTP status); `otherError` is any other exception (transport failure, JSON
decode error, a crash in the mapping loop); `success` carries the decoded
body. -/
inductive FetchOutcome where
  | httpError : String → FetchOutcome
  | otherError : String → FetchOutcome
  | success : PyVal → FetchOutcome

/-- The structured HTTP response of the Lambda.  The body is modelled as
the dict passed to `json.dumps` (serialization itself is not modelled);
the `Content-Type: application/json` header is fixed and omitted. -/
structure LambdaResponse where
  statusCode : Nat
  body : List (String × PyVal)

/-- The `ValueError` message of `ensure_table` (lines 27-30). -/
def configMessage : String :=
  "Variable de entorno DDB_TABLE no definida. Configure DDB_TABLE en serverless.yml."

/-- Model of `lambda_handler` (lines 136-200).  `ddbTable`/`prefReplace`
are the resolved configuration; `limit` is the already-parsed limit (the
query-string parsing with its silent fallback to 10 is not itself under
any claim); `fetchOut` is the outcome of the fetch step; `storeErr`
injects an external DynamoDB failure of the write phase (scan, delete or
put rejected by the service), in which case the write phase raises before
mutating; conversion errors raise from within `upsert_items` as in the
source.  Returns the HTTP response and the final store. -/
def lambda_handler (ddbTable : String) (prefReplace : Bool) (limit : Int)
    (fetchOut : FetchOutcome) (fresh : Nat → String) (psz : Nat)
    (storeErr : Option String) (st : Store) : LambdaResponse × Store :=
  if ddbTable = "" then
    (⟨500, [("error", .str "CONFIG_ERROR"), ("message", .str configMessage)]⟩, st)
  else
    match fetchOut with
    | .httpError d => (⟨502, [("error", .str "FETCH_ERROR"), ("detail", .str d)]⟩, st)
    | .otherError d => (⟨500, [("error", .str "FETCH_ERROR"), ("detail", .str d)]⟩, st)
    | .success data =>
      let items := fetch_latest_sismos limit fresh data
      match storeErr with
      | some d => (⟨500, [("error", .str "DDB_ERROR"), ("detail", .str d)]⟩, st)
      | Option.none =>
        let st1 := if prefReplace then clear_table_by_ids st (scan_all_ids psz st) else st
        match upsert_items st1 items with
        | .error d => (⟨500, [("error", .str "DDB_ERROR"), ("detail", .str d)]⟩, st1)
        | .ok st2 =>
          (⟨200, [("count", .int (items.length : Int)),
            ("items", .list (items.map Item.toPyVal))]⟩, st2)

/-- The source value feeding `parse_date`:
`attrs.get("fechaevento") or attrs.get("FECHAEVENTO")` (line 68). -/
def eventTimeAttr (feat : PyVal) : PyVal :=
  pyOr (dGet (attrsOf feat) "fechaevento") (dGet (attrsOf feat) "FECHAEVENTO")

mutual

/-- How `convert_numbers` rewrites a value when it succeeds: ints become
the exact decimal of their digit string, floats the exact decimal denoted
by their repr string, strings and nulls pass through unchanged, and
containers map entrywise keeping keys and order. -/
inductive Converted : PyVal → PyVal → Prop where
  | none : Converted .none .none
  | str (s : String) : Converted (.str s) (.str s)
  | dec (d : DecVal) : Converted (.dec d) (.dec d)
  | int (n : Int) : Converted (.int n) (.dec ⟨n, 0⟩)
  | float (s : String) (d : DecVal) : decimalParse s = some d → Converted (.float s) (.dec d)
  | list (xs ys : List PyVal) : ConvertedList xs ys → Converted (.list xs) (.list ys)
  | dict (kvs cvs : List (String × PyVal)) : ConvertedKVs kvs cvs →
      Converted (.dict kvs) (.dict cvs)

/-- `Converted`, elementwise. -/
inductive ConvertedList : List PyVal → List PyVal → Prop where
  | nil : ConvertedList [] []
  | cons (v w : PyVal) (vs ws : List PyVal) : Converted v w → ConvertedList vs ws →
      ConvertedList (v :: vs) (w :: ws)

/-- `Converted`, valuewise over dict entries. -/
inductive ConvertedKVs : List (String × PyVal) → List (String × PyVal) → Prop where
  | nil : ConvertedKVs [] []
  | cons (k : String) (v w : PyVal) (r s : List (String × PyVal)) : Converted v w →
      ConvertedKVs r s → ConvertedKVs ((k, v) :: r) ((k, w) :: s)

end

/-! ### Basic lemmas -/

theorem natToChars_ne_nil (n : Nat) : natToChars n ≠ [] := by
  show natToCharsAux (n + 1) n ≠ []
  rw [natToCharsAux]
  split
  · simp
  · simp

theorem natToString_ne_empty (n : Nat) : natToString n ≠ "" := by
  intro h
  exact natToChars_ne_nil n (congrArg String.data h)

theorem intToString_ne_empty (i : Int) : intToString i ≠ "" := by
  unfold intToString
  split
  · intro h
    have h2 : '-' :: (natToString i.natAbs).data = [] := congrArg String.data h
    simp at h2
  · exact natToString_ne_empty i.natAbs

theorem string_eq_empty_of_data (a : String) (h : a.data = []) : a = "" := by
  cases a with
  | mk l => rw [show l = [] from h]

theorem append_ne_empty_left (a b : String) (h : a ≠ "") : a ++ b ≠ "" := by
  intro he
  have h2 : a.data ++ b.data = [] := congrArg String.data he
  exact h (string_eq_empty_of_data a (List.append_eq_nil.mp h2).1)

theorem decimalParse_empty : decimalParse "" = Option.none := rfl

theorem pyOr_cases (a b : PyVal) :
    (pyTruthy a = true ∧ pyOr a b = a) ∨ (pyTruthy a = false ∧ pyOr a b = b) := by
  unfold pyOr
  cases h : pyTruthy a <;> simp [h]

theorem pyTruthy_ne_emptyStr {a : PyVal} (h : pyTruthy a = true) : isEmptyStr a = false := by
  cases a <;> simp_all [pyTruthy, isEmptyStr]

/-- Python `str()` of a truthy, well-formed value is never the empty
string. -/
theorem pyStr_ne_empty (v : PyVal) (ht : pyTruthy v = true) (hw : wfFloats v = true) :
    pyStr v ≠ "" := by
  cases v with
  | none => simp [pyTruthy] at ht
  | bool b =>
    cases b
    · simp [pyTruthy] at ht
    · simp [pyStr, pyRepr]
  | int n => exact intToString_ne_empty n
  | float s =>
    simp only [wfFloats] at hw
    intro h
    rw [show pyStr (.float s) = s from rfl] at h
    rw [h, decimalParse_empty] at hw
    simp at hw
  | str s => simpa [pyTruthy, pyStr] using ht
  | list xs =>
    show "[" ++ pyReprList xs ++ "]" ≠ ""
    exact append_ne_empty_left _ _ (append_ne_empty_left _ _ (by decide))
  | dict kvs =>
    show "\x7b" ++ pyReprKVs kvs ++ "\x7d" ≠ ""
    exact append_ne_empty_left _ _ (append_ne_empty_left _ _ (by decide))
  | dec d =>
    show "Decimal(\x27" ++ intToString d.mant ++ "/" ++ natToString d.exp ++ "\x27)" ≠ ""
    exact append_ne_empty_left _ _ (append_ne_empty_left _ _ (append_ne_empty_left _ _
      (append_ne_empty_left _ _ (by decide))))

/-! ### Well-formedness propagation -/

theorem wfList_mem {xs : List PyVal} (h : wfFloatsList xs = true) {x : PyVal} (hx : x ∈ xs) :
    wfFloats x = true := by
  induction xs with
  | nil => cases hx
  | cons a t ih =>
    simp only [wfFloatsList, Bool.and_eq_true] at h
    rcases List.mem_cons.mp hx with rfl | hx2
    · exact h.1
    · exact ih h.2 hx2

theorem wfKVs_lookup {kvs : List (String × PyVal)} (h : wfFloatsKVs kvs = true) {k : String}
    {v : PyVal} (hl : kvs.lookup k = some v) : wfFloats v = true := by
  induction kvs with
  | nil => simp [List.lookup] at hl
  | cons a t ih =>
    obtain ⟨k0, v0⟩ := a
    simp only [wfFloatsKVs, Bool.and_eq_true] at h
    rw [List.lookup] at hl
    split at hl
    · cases hl
      exact h.1
    · exact ih h.2 hl

theorem wf_dGetD {kvs : List (String × PyVal)} {k : String} {d : PyVal}
    (h : wfFloatsKVs kvs = true) (hd : wfFloats d = true) : wfFloats (dGetD kvs k d) = true := by
  unfold dGetD
  cases hl : kvs.lookup k
  · simpa using hd
  · exact wfKVs_lookup h hl

theorem wf_dGet {kvs : List (String × PyVal)} {k : String} (h : wfFloatsKVs kvs = true) :
    wfFloats (dGet kvs k) = true :=
  wf_dGetD h rfl

theorem wf_pyOr {a b : PyVal} (ha : wfFloats a = true) (hb : wfFloats b = true) :
    wfFloats (pyOr a b) = true := by
  unfold pyOr
  split <;> assumption

theorem wf_asKVs {v : PyVal} (h : wfFloats v = true) : wfFloatsKVs (asKVs v) = true := by
  cases v <;> simp_all [asKVs, wfFloats, wfFloatsKVs]

theorem wf_asList {v : PyVal} (h : wfFloats v = true) : wfFloatsList (asList v) = true := by
  cases v <;> simp_all [asList, wfFloats, wfFloatsList]

theorem wf_attrsOf {feat : PyVal} (h : wfFloats feat = true) :
    wfFloatsKVs (attrsOf feat) = true := by
  unfold attrsOf
  exact wf_asKVs (wf_pyOr (wf_dGet (wf_asKVs h)) (wf_pyOr (wf_dGet (wf_asKVs h)) rfl))

theorem wf_featuresOf {data : PyVal} (h : wfFloats data = true) :
    wfFloatsList (featuresOf data) = true := by
  unfold featuresOf
  exact wf_asList (wf_pyOr (wf_dGetD (wf_asKVs h) rfl) rfl)

/-! ### The fetch mapping -/

theorem featureToItem_id (fr : String) (feat : PyVal) :
    (featureToItem fr feat).id = pyStr (pyOr (dGet (attrsOf feat) "code")
      (pyOr (dGet (attrsOf feat) "objectid") (pyOr (dGet (attrsOf feat) "OBJECTID") (.str fr)))) := by
  simp [featureToItem]

theorem featureToItem_id_ne_empty {fr : String} {feat : PyVal} (hf : fr ≠ "")
    (hw : wfFloats feat = true) : (featureToItem fr feat).id ≠ "" := by
  rw [featureToItem_id]
  have hattrs := wf_attrsOf hw
  have h1 : wfFloats (dGet (attrsOf feat) "code") = true := wf_dGet hattrs
  have h2 : wfFloats (dGet (attrsOf feat) "objectid") = true := wf_dGet hattrs
  have h3 : wfFloats (dGet (attrsOf feat) "OBJECTID") = true := wf_dGet hattrs
  rcases pyOr_cases (dGet (attrsOf feat) "code") _ with ⟨ht, he⟩ | ⟨_, he⟩
  · rw [he]; exact pyStr_ne_empty _ ht h1
  · rw [he]
    rcases pyOr_cases (dGet (attrsOf feat) "objectid") _ with ⟨ht, he2⟩ | ⟨_, he2⟩
    · rw [he2]; exact pyStr_ne_empty _ ht h2
    · rw [he2]
      rcases pyOr_cases (dGet (attrsOf feat) "OBJECTID") _ with ⟨ht, he3⟩ | ⟨_, he3⟩
      · rw [he3]; exact pyStr_ne_empty _ ht h3
      · rw [he3]; exact hf

theorem mapIdx_mem {fresh : Nat → String} {fs : List PyVal} {i : Nat} {it : Item}
    (h : it ∈ mapIdx fresh i fs) : ∃ j f, f ∈ fs ∧ it = featureToItem (fresh j) f := by
  induction fs generalizing i with
  | nil => cases h
  | cons a t ih =>
    rcases List.mem_cons.mp h with rfl | h2
    · exact ⟨i, a, List.mem_cons_self a t, rfl⟩
    · rcases ih h2 with ⟨j, f, hf, he⟩
      exact ⟨j, f, List.mem_cons_of_mem a hf, he⟩

theorem mapIdx_length (fresh : Nat → String) : ∀ (i : Nat) (fs : List PyVal),
    (mapIdx fresh i fs).length = fs.length := by
  intro i fs
  induction fs generalizing i with
  | nil => rfl
  | cons a t ih => simp [mapIdx, ih]

theorem mapIdx_get? (fresh : Nat → String) : ∀ (fs : List PyVal) (i j : Nat),
    (mapIdx fresh i fs).get? j = (fs.get? j).map (fun f => featureToItem (fresh (i + j)) f) := by
  intro fs
  induction fs with
  | nil => intro i j; simp [mapIdx]
  | cons a t ih =>
    intro i j
    cases j with
    | zero => simp [mapIdx]
    | succ j =>
      have he : i + 1 + j = i + (j + 1) := by omega
      simp only [mapIdx, List.get?]
      rw [ih (i + 1) j, he]

/-! ### Claim C1 -/

/-- C1 counterexample: a valid response carrying 12 features while
`limit = 5` makes `fetch_latest_sismos` return 12 records, not 5 — the
function never truncates locally. -/
theorem fetch_no_local_truncation_cex :
    (fetch_latest_sismos 5 (fun i => "u" ++ natToString i)
      (.dict [("features", .list (List.replicate 12
        (.dict [("properties", .dict [("code", .str "c")])])))])).length = 12 ∧
    (12 : Nat) ≠ 5 :=
  ⟨rfl, by decide⟩

/-- C1 (corrected): `fetch_latest_sismos` forwards `limit` only as the
`resultRecordCount` request parameter and maps the response features
one-to-one, in order; the batch size equals the feature count, so it is
bounded by `limit` exactly when the service honors the requested cap. -/
theorem fetch_per_feature (limit : Int) (fresh : Nat → String) (data : PyVal)
    (_hv : validResponse data = true) :
    (requestParams limit).resultRecordCount = limit ∧
    (fetch_latest_sismos limit fresh data).length = (featuresOf data).length ∧
    (∀ j, (fetch_latest_sismos limit fresh data).get? j
      = ((featuresOf data).get? j).map (fun f => featureToItem (fresh j) f)) ∧
    (∀ n : Nat, (featuresOf data).length ≤ n →
      (fetch_latest_sismos limit fresh data).length ≤ n) := by
  refine ⟨rfl, mapIdx_length fresh 0 _, ?_, ?_⟩
  · intro j
    have := mapIdx_get? fresh (featuresOf data) 0 j
    simpa using this
  · intro n hn
    rw [show (fetch_latest_sismos limit fresh data).length = (featuresOf data).length from
      mapIdx_length fresh 0 _]
    exact hn

/-- C1 witness: on a valid single-feature response with `limit = 5` the
theorem instantiates and the record count equals the feature count. -/
theorem fetch_per_feature_witness :
    (requestParams 5).resultRecordCount = 5 ∧
    (fetch_latest_sismos 5 (fun i => "u" ++ natToString i)
      (.dict [("features", .list [.dict [("properties", .dict [("code", .str "c")])]])])).length
      = (featuresOf (.dict [("features", .list [.dict [("properties",
          .dict [("code", .str "c")])]])])).length := by
  have h := fetch_per_feature 5 (fun i => "u" ++ natToString i)
    (.dict [("features", .list [.dict [("properties", .dict [("code", .str "c")])]])])
    (by decide)
  exact ⟨h.1, h.2.1⟩

/-! ### Claim C2 -/

/-- C2 counterexample: two features carrying the same `code` produce the
same id twice in one batch — ids are not unique within a batch and no
fresh token is generated on collision. -/
theorem fetch_duplicate_ids_cex :
    (fetch_latest_sismos 10 (fun i => "u" ++ natToString i)
      (.dict [("features", .list [.dict [("properties", .dict [("code", .str "A")])],
        .dict [("properties", .dict [("code", .str "A")])]])])).map Item.id = ["A", "A"] ∧
    ¬ List.Nodup ((fetch_latest_sismos 10 (fun i => "u" ++ natToString i)
      (.dict [("features", .list [.dict [("properties", .dict [("code", .str "A")])],
        .dict [("properties", .dict [("code", .str "A")])]])])).map Item.id) := by
  refine ⟨rfl, ?_⟩
  rw [show (fetch_latest_sismos 10 (fun i => "u" ++ natToString i)
    (.dict [("features", .list [.dict [("properties", .dict [("code", .str "A")])],
      .dict [("properties", .dict [("code", .str "A")])]])])).map Item.id = ["A", "A"] from rfl]
  decide

/-- C2 (corrected): every record id in a batch from a valid response is a
non-empty string, and a feature with no attributes at all receives the
fresh token as id; ids are however not deduplicated across the batch
(distinct features with equal `code` share an id). -/
theorem fetch_id_nonempty (limit : Int) (fresh : Nat → String) (data : PyVal)
    (hfr : ∀ i, fresh i ≠ "") (hv : validResponse data = true) :
    (∀ it ∈ fetch_latest_sismos limit fresh data, it.id ≠ "") ∧
    (∀ tok : String, (featureToItem tok (.dict [])).id = tok) := by
  constructor
  · intro it hit
    have hwdata : wfFloats data = true := by
      simp only [validResponse, Bool.and_eq_true] at hv
      exact hv.2
    unfold fetch_latest_sismos at hit
    rcases mapIdx_mem hit with ⟨j, f, hf, rfl⟩
    exact featureToItem_id_ne_empty (hfr j) (wfList_mem (wf_featuresOf hwdata) hf)
  · intro tok
    rfl

/-- C2 witness: instantiated on a valid response holding one feature with
no attributes; its id is the fresh token, which is non-empty. -/
theorem fetch_id_nonempty_witness :
    (∀ it ∈ fetch_latest_sismos 10 (fun i => "u" ++ natToString i)
      (.dict [("features", .list [.dict []])]), it.id ≠ "") ∧
    (featureToItem "tok" (.dict [])).id = "tok" := by
  have h := fetch_id_nonempty 10 (fun i => "u" ++ natToString i)
    (.dict [("features", .list [.dict []])])
    (fun i => append_ne_empty_left "u" _ (by decide)) (by decide)
  exact ⟨h.1, h.2 "tok"⟩

/-! ### Claim C4 -/

theorem featureToItem_fechaevento (fr : String) (feat : PyVal) :
    (featureToItem fr feat).fechaevento = (parse_date (eventTimeAttr feat)).getD "" := by
  simp [featureToItem, eventTimeAttr]

/-- C4 counterexample: a feature whose `fechaevento` attribute is the
numeric value 0 gets an empty `event_time`, although interpreting 0 as
epoch milliseconds converts to `1969-12-31T19:00:00-05:00`: the falsy
value 0 falls through the `or` chain as if the attribute were absent. -/
theorem event_time_zero_cex :
    (fetch_latest_sismos 10 (fun i => "u" ++ natToString i)
      (.dict [("features", .list [.dict [("properties",
        .dict [("fechaevento", .int 0)])]])])).map Item.fechaevento = [""] ∧
    parse_date (.int 0) = some "1969-12-31T19:00:00-05:00" ∧
    ("" : String) ≠ "1969-12-31T19:00:00-05:00" := by
  refine ⟨rfl, by decide, by decide⟩

/-- C4 (corrected): the resolved event-time source value is
`attrs.get("fechaevento") or attrs.get("FECHAEVENTO")` (so a falsy first
value, e.g. 0 or the empty string, falls through to the second attribute
as-is); when that resolved value is numeric — an integer `n`, or a float
whose repr denotes the exact decimal `d` — `event_time` is the value
interpreted as epoch milliseconds UTC, shifted to the fixed UTC-5 offset
and rendered as ISO-8601 (falling back to the raw string form when the
conversion leaves the datetime range); when it is a string it passes
through unchanged; when it is null/absent, `event_time` is the empty
string. -/
theorem event_time_resolution (fr : String) (feat : PyVal) :
    (∀ n : Int, eventTimeAttr feat = .int n →
      (featureToItem fr feat).fechaevento
        = (timestampToIsoUtcMinus5 ⟨n, 3⟩).getD (intToString n)) ∧
    (∀ (s : String) (d : DecVal), eventTimeAttr feat = .float s → decimalParse s = some d →
      (featureToItem fr feat).fechaevento
        = (timestampToIsoUtcMinus5 (d.divPow10 3)).getD s) ∧
    (∀ s : String, eventTimeAttr feat = .str s → (featureToItem fr feat).fechaevento = s) ∧
    (eventTimeAttr feat = .none → (featureToItem fr feat).fechaevento = "") := by
  refine ⟨?_, ?_, ?_, ?_⟩
  · intro n hn
    rw [featureToItem_fechaevento, hn]
    rfl
  · intro s d hs hd
    rw [featureToItem_fechaevento, hs]
    simp [parse_date, hd]
  · intro s hs
    rw [featureToItem_fechaevento, hs]
    rfl
  · intro h0
    rw [featureToItem_fechaevento, h0]
    rfl

/-- C4 witness: instantiated on an integer epoch-millisecond value and on a
float epoch-millisecond value (both render at the fixed UTC-5 offset), on
a non-numeric string (which passes through unchanged) and on an absent
attribute (which yields the empty string). -/
theorem event_time_resolution_witness :
    (featureToItem "u" (.dict [("properties",
      .dict [("fechaevento", .int 1700000000000)])])).fechaevento
      = (timestampToIsoUtcMinus5 ⟨1700000000000, 3⟩).getD
          (intToString 1700000000000) ∧
    (featureToItem "u" (.dict [("properties",
      .dict [("fechaevento", .int 1700000000000)])])).fechaevento
      = "2023-11-14T17:13:20-05:00" ∧
    (featureToItem "u" (.dict [("properties",
      .dict [("fechaevento", .float "1.7e12")])])).fechaevento
      = (timestampToIsoUtcMinus5 (DecVal.divPow10 ⟨1700000000000, 0⟩ 3)).getD "1.7e12" ∧
    (featureToItem "u" (.dict [("properties",
      .dict [("fechaevento", .float "1.7e12")])])).fechaevento
      = "2023-11-14T17:13:20-05:00" ∧
    (featureToItem "u" (.dict [("properties",
      .dict [("fechaevento", .str "2025/08/21 14:10:11")])])).fechaevento
      = "2025/08/21 14:10:11" ∧
    (featureToItem "u" (.dict [])).fechaevento = "" := by
  refine ⟨(event_time_resolution "u" _).1 1700000000000 rfl, by decide,
    (event_time_resolution "u" _).2.1 "1.7e12" ⟨1700000000000, 0⟩ rfl rfl, by decide,
    (event_time_resolution "u" _).2.2.1 "2025/08/21 14:10:11" rfl,
    (event_time_resolution "u" _).2.2.2 rfl⟩

/-! ### Claim C8 -/

/-- C8 counterexample: with no geometry, a flat `lon` attribute holding the
numeric value 0 yields an empty `lon` field instead of `"0"` — the falsy
value is discarded by the `or` fallback even though the flat attribute is
present (while the truthy flat `lat` passes through). -/
theorem coords_zero_attr_cex :
    (fetch_latest_sismos 10 (fun i => "u" ++ natToString i)
      (.dict [("features", .list [.dict [("properties",
        .dict [("lon", .int 0), ("lat", .float "-12.5")])]])])).map Item.lon = [""] ∧
    (fetch_latest_sismos 10 (fun i => "u" ++ natToString i)
      (.dict [("features", .list [.dict [("properties",
        .dict [("lon", .int 0), ("lat", .float "-12.5")])]])])).map Item.lat = ["-12.5"] ∧
    pyStr (.int 0) = "0" ∧ ("" : String) ≠ "0" :=
  ⟨rfl, rfl, rfl, by decide⟩

/-- C8 (corrected): `lon` comes from the first geometry coordinate when the
coordinate list is non-empty and `lat` from the second when it has at
least two entries (stringified, with an empty-string coordinate kept
empty); otherwise the flat `lon`/`lat` attribute is used when truthy;
a falsy or absent flat attribute (null, absent, the number 0 or the empty
string) yields the empty string. -/
theorem coordinate_resolution (fr : String) (feat : PyVal) :
    (∀ c0 rest, coordsOf feat = c0 :: rest →
      (featureToItem fr feat).lon = (if isEmptyStr c0 then "" else pyStr c0)) ∧
    (coordsOf feat = [] → pyTruthy (dGet (attrsOf feat) "lon") = true →
      (featureToItem fr feat).lon = pyStr (dGet (attrsOf feat) "lon")) ∧
    (coordsOf feat = [] → pyTruthy (dGet (attrsOf feat) "lon") = false →
      (featureToItem fr feat).lon = "") ∧
    (∀ c0 c1 rest, coordsOf feat = c0 :: c1 :: rest →
      (featureToItem fr feat).lat = (if isEmptyStr c1 then "" else pyStr c1)) ∧
    ((coordsOf feat).length ≤ 1 → pyTruthy (dGet (attrsOf feat) "lat") = true →
      (featureToItem fr feat).lat = pyStr (dGet (attrsOf feat) "lat")) ∧
    ((coordsOf feat).length ≤ 1 → pyTruthy (dGet (attrsOf feat) "lat") = false →
      (featureToItem fr feat).lat = "") := by
  refine ⟨?_, ?_, ?_, ?_, ?_, ?_⟩
  · intro c0 rest hc
    simp [featureToItem, hc]
  · intro hc ht
    simp [featureToItem, hc, pyOr, ht, pyTruthy_ne_emptyStr ht]
  · intro hc hf
    simp [featureToItem, hc, pyOr, hf, isEmptyStr]
  · intro c0 c1 rest hc
    simp [featureToItem, hc]
  · intro hlen ht
    match hc : coordsOf feat with
    | [] => simp [featureToItem, hc, pyOr, ht, pyTruthy_ne_emptyStr ht]
    | [c0] => simp [featureToItem, hc, pyOr, ht, pyTruthy_ne_emptyStr ht]
    | c0 :: c1 :: rest => rw [hc] at hlen; simp at hlen
  · intro hlen hf
    match hc : coordsOf feat with
    | [] => simp [featureToItem, hc, pyOr, hf, isEmptyStr]
    | [c0] => simp [featureToItem, hc, pyOr, hf, isEmptyStr]
    | c0 :: c1 :: rest => rw [hc] at hlen; simp at hlen

/-- C8 witness: instantiated on a feature with a two-point geometry (both
coordinates used), a feature with only a flat truthy `lat` (flat fallback
used) and a feature with nothing (empty string). -/
theorem coordinate_resolution_witness :
    (featureToItem "u" (.dict [("geometry", .dict [("coordinates",
      .list [.float "-77.03", .float "-12.04"])])])).lon
      = (if isEmptyStr (.float "-77.03") then "" else pyStr (.float "-77.03")) ∧
    (featureToItem "u" (.dict [("geometry", .dict [("coordinates",
      .list [.float "-77.03", .float "-12.04"])])])).lat
      = (if isEmptyStr (.float "-12.04") then "" else pyStr (.float "-12.04")) ∧
    (featureToItem "u" (.dict [("properties", .dict [("lat", .float "-12.5")])])).lat
      = pyStr (dGet (attrsOf (.dict [("properties", .dict [("lat", .float "-12.5")])])) "lat") ∧
    (featureToItem "u" (.dict [])).lon = "" := by
  refine ⟨(coordinate_resolution "u" _).1 _ _ rfl,
    (coordinate_resolution "u" _).2.2.2.1 _ _ _ rfl,
    (coordinate_resolution "u" _).2.2.2.2.1 (by decide) (by decide),
    (coordinate_resolution "u" _).2.2.1 rfl (by decide)⟩

/-! ### Claim C9 -/

/-- C9 counterexample: a null nested one level inside an attribute value
survives into `raw` unchanged — only top-level nulls are normalized to the
empty string. -/
theorem raw_nested_null_cex :
    (fetch_latest_sismos 10 (fun i => "u" ++ natToString i)
      (.dict [("features", .list [.dict [("properties",
        .dict [("a", .dict [("b", PyVal.none)])])]])])).map Item.raw
      = [[("a", .dict [("b", PyVal.none)])]] ∧
    (PyVal.dict [("b", PyVal.none)]) ≠ (.dict [("b", .str "")]) :=
  ⟨rfl, by simp⟩

/-- C9 (corrected): `raw` keeps every attribute of the source record, in
order, with null values at the top level of the attribute mapping
normalized to the empty string; nulls nested deeper inside attribute
values are preserved as-is. -/
theorem raw_top_level_null (fr : String) (feat : PyVal) :
    (featureToItem fr feat).raw.length = (attrsOf feat).length ∧
    (∀ kv ∈ attrsOf feat,
      (kv.1, if isNone kv.2 then PyVal.str "" else kv.2) ∈ (featureToItem fr feat).raw) := by
  constructor
  · simp [featureToItem]
  · intro kv hkv
    simp only [featureToItem, List.mem_map]
    exact ⟨kv, hkv, rfl⟩

/-- C9 witness: instantiated on a feature with one null attribute (mapped
to the empty string) and one non-null attribute (kept verbatim). -/
theorem raw_top_level_null_witness :
    (featureToItem "u" (.dict [("properties",
      .dict [("x", PyVal.none), ("y", .str "v")])])).raw.length
      = (attrsOf (.dict [("properties", .dict [("x", PyVal.none), ("y", .str "v")])])).length ∧
    ("x", PyVal.str "") ∈ (featureToItem "u" (.dict [("properties",
      .dict [("x", PyVal.none), ("y", .str "v")])])).raw ∧
    ("y", PyVal.str "v") ∈ (featureToItem "u" (.dict [("properties",
      .dict [("x", PyVal.none), ("y", .str "v")])])).raw := by
  have ha : attrsOf (.dict [("properties", .dict [("x", PyVal.none), ("y", .str "v")])])
      = [("x", PyVal.none), ("y", .str "v")] := rfl
  refine ⟨(raw_top_level_null "u" _).1,
    (raw_top_level_null "u" _).2 ("x", PyVal.none) (by rw [ha]; simp),
    (raw_top_level_null "u" _).2 ("y", PyVal.str "v") (by rw [ha]; simp)⟩

/-! ### Store lemmas -/

theorem scanAux_eq (psz : Nat) : ∀ (fuel : Nat) (st : Store), st.length ≤ fuel →
    scanAux psz fuel st = st.map Prod.fst := by
  intro fuel
  induction fuel with
  | zero =>
    intro st h
    have h0 : st = [] := List.eq_nil_of_length_eq_zero (by omega)
    subst h0
    rfl
  | succ fuel ih =>
    intro st h
    match st with
    | [] => rfl
    | a :: t =>
      rw [scanAux, ih ((a :: t).drop (psz + 1))
        (by simp only [List.length_drop, List.length_cons] at h ⊢; omega)]
      rw [← List.map_append, List.take_append_drop]

theorem scan_all_ids_eq (psz : Nat) (st : Store) : scan_all_ids psz st = st.map Prod.fst :=
  scanAux_eq psz st.length st (Nat.le_refl _)

theorem foldl_storeDelete (ids : List String) : ∀ st : Store,
    clear_table_by_ids st ids = st.filter (fun p => !(ids.contains p.1)) := by
  induction ids with
  | nil => intro st; simp [clear_table_by_ids]
  | cons i ids ih =>
    intro st
    show clear_table_by_ids (storeDelete st i) ids = _
    rw [ih (storeDelete st i)]
    unfold storeDelete
    rw [List.filter_filter]
    apply List.filter_congr
    intro p _
    rw [List.contains_cons, Bool.not_or, Bool.and_comm]
    rfl

theorem clear_all (st : Store) : clear_table_by_ids st (st.map Prod.fst) = [] := by
  rw [foldl_storeDelete]
  apply List.filter_eq_nil_iff.mpr
  intro p hp
  have hm : p.1 ∈ st.map Prod.fst := List.mem_map_of_mem Prod.fst hp
  simp [hm]

theorem storePut_lookup_self (st : Store) (k : String) (v : PyVal) :
    (storePut st k v).lookup k = some v := by
  induction st with
  | nil => simp [storePut, List.lookup]
  | cons a t ih =>
    obtain ⟨k0, v0⟩ := a
    by_cases h : k0 = k
    · simp [storePut, h, List.lookup]
    · have hb : (k == k0) = false := beq_eq_false_iff_ne.mpr (Ne.symm h)
      simp [storePut, h, List.lookup, hb, ih]

theorem storePut_lookup_other (st : Store) (k k2 : String) (v : PyVal) (h : k2 ≠ k) :
    (storePut st k v).lookup k2 = st.lookup k2 := by
  have hb : (k2 == k) = false := beq_eq_false_iff_ne.mpr h
  induction st with
  | nil => simp [storePut, List.lookup, hb]
  | cons a t ih =>
    obtain ⟨k0, v0⟩ := a
    by_cases hk : k0 = k
    · subst hk
      simp [storePut, List.lookup, hb]
    · by_cases hk2 : k2 = k0
      · subst hk2
        simp [storePut, hk, List.lookup]
      · have hb2 : (k2 == k0) = false := beq_eq_false_iff_ne.mpr hk2
        simp [storePut, hk, List.lookup, hb2, ih]

/-- A successfully converted item keeps its string `id` attribute, so the
put targets exactly the record id. -/
theorem convert_item_key (it : Item) (c : PyVal) (h : convert_numbers it.toPyVal = .ok c) :
    itemKey c = .ok it.id := by
  simp only [Item.toPyVal, convert_numbers, convertKVs] at h
  cases hr : convertKVs it.raw with
  | error e => rw [hr] at h; simp at h
  | ok l =>
    rw [hr] at h
    simp only [Except.ok.injEq] at h
    subst h
    rfl

theorem upsert_frame : ∀ (items : List Item) (st st2 : Store),
    upsert_items st items = .ok st2 → ∀ k, k ∉ items.map Item.id →
    st2.lookup k = st.lookup k := by
  intro items
  induction items with
  | nil =>
    intro st st2 h k _
    simp only [upsert_items, Except.ok.injEq] at h
    rw [h]
  | cons it rest ih =>
    intro st st2 h k hk
    rw [upsert_items] at h
    cases hc : convert_numbers it.toPyVal with
    | error e => rw [hc] at h; simp at h
    | ok c =>
      rw [hc] at h
      dsimp only at h
      rw [convert_item_key it c hc] at h
      dsimp only at h
      have h1 : k ∉ rest.map Item.id := fun hmem => hk (List.mem_cons_of_mem _ hmem)
      have h2 : k ≠ it.id := fun he => hk (by simp [he])
      rw [ih _ _ h k h1]
      exact storePut_lookup_other st it.id k c h2

theorem upsert_writes : ∀ (items : List Item) (st st2 : Store),
    upsert_items st items = .ok st2 → (items.map Item.id).Nodup →
    ∀ it ∈ items, ∃ c, convert_numbers it.toPyVal = .ok c ∧ st2.lookup it.id = some c := by
  intro items
  induction items with
  | nil =>
    intro st st2 _ _ it hit
    cases hit
  | cons it0 rest ih =>
    intro st st2 h hnd it hit
    rw [upsert_items] at h
    cases hc : convert_numbers it0.toPyVal with
    | error e => rw [hc] at h; simp at h
    | ok c =>
      rw [hc] at h
      dsimp only at h
      rw [convert_item_key it0 c hc] at h
      dsimp only at h
      rcases List.mem_cons.mp hit with rfl | hit2
      · refine ⟨c, hc, ?_⟩
        have hnotin : it.id ∉ rest.map Item.id := by
          simp only [List.map_cons, List.nodup_cons] at hnd
          exact hnd.1
        rw [upsert_frame rest _ _ h it.id hnotin]
        exact storePut_lookup_self st it.id c
      · exact ih _ _ h (by simp only [List.map_cons, List.nodup_cons] at hnd; exact hnd.2) it hit2

/-! ### Handler equations -/

theorem fetch_empty (limit : Int) (fr : Nat → String) (data : PyVal)
    (h : featuresOf data = []) : fetch_latest_sismos limit fr data = [] := by
  unfold fetch_latest_sismos
  rw [h]
  rfl

theorem handler_success_eq (tb : String) (pre : Bool) (limit : Int) (data : PyVal)
    (fr : Nat → String) (psz : Nat) (st st2 : Store) (htb : tb ≠ "")
    (hok : upsert_items (if pre then clear_table_by_ids st (scan_all_ids psz st) else st)
      (fetch_latest_sismos limit fr data) = .ok st2) :
    lambda_handler tb pre limit (.success data) fr psz Option.none st
      = (⟨200, [("count", .int ((fetch_latest_sismos limit fr data).length : Int)),
          ("items", .list ((fetch_latest_sismos limit fr data).map Item.toPyVal))]⟩, st2) := by
  unfold lambda_handler
  rw [if_neg htb]
  dsimp only
  rw [hok]

theorem handler_config_eq (pre : Bool) (limit : Int) (fo : FetchOutcome)
    (fr : Nat → String) (psz : Nat) (serr : Option String) (st : Store) :
    lambda_handler "" pre limit fo fr psz serr st
      = (⟨500, [("error", .str "CONFIG_ERROR"), ("message", .str configMessage)]⟩, st) := by
  unfold lambda_handler
  rw [if_pos rfl]

theorem handler_http_eq (tb : String) (pre : Bool) (limit : Int) (d : String)
    (fr : Nat → String) (psz : Nat) (serr : Option String) (st : Store) (htb : tb ≠ "") :
    lambda_handler tb pre limit (.httpError d) fr psz serr st
      = (⟨502, [("error", .str "FETCH_ERROR"), ("detail", .str d)]⟩, st) := by
  unfold lambda_handler
  rw [if_neg htb]

theorem handler_other_eq (tb : String) (pre : Bool) (limit : Int) (d : String)
    (fr : Nat → String) (psz : Nat) (serr : Option String) (st : Store) (htb : tb ≠ "") :
    lambda_handler tb pre limit (.otherError d) fr psz serr st
      = (⟨500, [("error", .str "FETCH_ERROR"), ("detail", .str d)]⟩, st) := by
  unfold lambda_handler
  rw [if_neg htb]

theorem handler_storeerr_eq (tb : String) (pre : Bool) (limit : Int) (data : PyVal)
    (fr : Nat → String) (psz : Nat) (e : String) (st : Store) (htb : tb ≠ "") :
    lambda_handler tb pre limit (.success data) fr psz (some e) st
      = (⟨500, [("error", .str "DDB_ERROR"), ("detail", .str e)]⟩, st) := by
  unfold lambda_handler
  rw [if_neg htb]

/-! ### Claim C5 -/

/-- C5 (confirmed): the scan enumerates every stored id, following
continuation tokens across pages of any size until exhausted; deleting the
enumerated ids empties the store; and the handler in replace mode with an
empty batch clears everything and leaves the store empty. -/
theorem replace_mode_clears_store :
    (∀ (psz : Nat) (st : Store), scan_all_ids psz st = st.map Prod.fst) ∧
    (∀ (psz : Nat) (st : Store), clear_table_by_ids st (scan_all_ids psz st) = []) ∧
    (∀ (tb : String) (limit : Int) (fr : Nat → String) (psz : Nat) (st : Store) (data : PyVal),
      tb ≠ "" → validResponse data = true → featuresOf data = [] →
      lambda_handler tb true limit (.success data) fr psz Option.none st
        = (⟨200, [("count", .int 0), ("items", .list [])]⟩, ([] : Store))) := by
  have hclr : ∀ (psz : Nat) (st : Store), clear_table_by_ids st (scan_all_ids psz st) = [] := by
    intro psz st
    rw [scan_all_ids_eq]
    exact clear_all st
  refine ⟨scan_all_ids_eq, hclr, ?_⟩
  intro tb limit fr psz st data htb _hv hfe
  have hf : fetch_latest_sismos limit fr data = [] := fetch_empty limit fr data hfe
  have hok : upsert_items (if true then clear_table_by_ids st (scan_all_ids psz st) else st)
      (fetch_latest_sismos limit fr data) = .ok ([] : Store) := by
    rw [hf, if_pos rfl, hclr psz st]
    rfl
  have h := handler_success_eq tb true limit data fr psz st [] htb hok
  rw [hf] at h
  simpa using h

/-- C5 witness: instantiated on a two-item store scanned in pages of one
item, and on the handler in replace mode with a zero-feature response over
a non-empty store, which ends empty with a 200 response. -/
theorem replace_mode_clears_store_witness :
    scan_all_ids 0 [("old", PyVal.str "x"), ("old2", PyVal.str "y")] = ["old", "old2"] ∧
    clear_table_by_ids [("old", PyVal.str "x"), ("old2", PyVal.str "y")]
      (scan_all_ids 0 [("old", PyVal.str "x"), ("old2", PyVal.str "y")]) = [] ∧
    lambda_handler "T" true 10 (.success (.dict [("features", .list [])]))
      (fun i => "u" ++ natToString i) 0 Option.none
      [("old", PyVal.str "x"), ("old2", PyVal.str "y")]
      = (⟨200, [("count", .int 0), ("items", .list [])]⟩, ([] : Store)) := by
  refine ⟨?_, replace_mode_clears_store.2.1 0 _,
    replace_mode_clears_store.2.2 "T" 10 _ 0 _ _ (by decide) (by decide) rfl⟩
  rw [replace_mode_clears_store.1 0 _]
  rfl

/-! ### Claim C6 -/

/-- C6 (confirmed): a successful upsert leaves every stored record whose id
is outside the batch untouched; each batch record (for batches with
distinct ids) ends stored, converted, under its own id; an empty batch
leaves the store exactly unchanged; and the handler in upsert mode with an
empty batch returns 200 with count 0 and an unchanged store. -/
theorem upsert_frame_and_empty :
    (∀ (st : Store) (items : List Item) (st2 : Store), upsert_items st items = .ok st2 →
      ∀ k, k ∉ items.map Item.id → st2.lookup k = st.lookup k) ∧
    (∀ (st : Store) (items : List Item) (st2 : Store), upsert_items st items = .ok st2 →
      (items.map Item.id).Nodup →
      ∀ it ∈ items, ∃ c, convert_numbers it.toPyVal = .ok c ∧ st2.lookup it.id = some c) ∧
    (∀ st : Store, upsert_items st [] = .ok st) ∧
    (∀ (tb : String) (limit : Int) (fr : Nat → String) (psz : Nat) (st : Store) (data : PyVal),
      tb ≠ "" → validResponse data = true → featuresOf data = [] →
      lambda_handler tb false limit (.success data) fr psz Option.none st
        = (⟨200, [("count", .int 0), ("items", .list [])]⟩, st)) := by
  refine ⟨fun st items st2 h => upsert_frame items st st2 h,
    fun st items st2 h => upsert_writes items st st2 h, fun st => rfl, ?_⟩
  intro tb limit fr psz st data htb _hv hfe
  have hf := fetch_empty limit fr data hfe
  have hok : upsert_items (if false then clear_table_by_ids st (scan_all_ids psz st) else st)
      (fetch_latest_sismos limit fr data) = .ok st := by
    rw [hf]
    rfl
  have h := handler_success_eq tb false limit data fr psz st st htb hok
  rw [hf] at h
  simpa using h

/-- C6 witness: instantiated on a one-record batch over a store holding an
unrelated record (which keeps its value), on the empty batch, and on the
handler in upsert mode with a zero-feature response (store unchanged,
count 0). -/
theorem upsert_frame_and_empty_witness :
    upsert_items [("other", PyVal.str "o")] [⟨"a", "", "", "", "", "", "", "", "", []⟩]
      = .ok [("other", PyVal.str "o"),
          ("a", Item.toPyVal ⟨"a", "", "", "", "", "", "", "", "", []⟩)] ∧
    (List.lookup "other" [("other", PyVal.str "o"),
        ("a", Item.toPyVal ⟨"a", "", "", "", "", "", "", "", "", []⟩)])
      = List.lookup "other" [("other", PyVal.str "o")] ∧
    upsert_items [("other", PyVal.str "o")] [] = .ok [("other", PyVal.str "o")] ∧
    lambda_handler "T" false 10 (.success (.dict [("features", .list [])]))
      (fun i => "u" ++ natToString i) 0 Option.none [("other", PyVal.str "o")]
      = (⟨200, [("count", .int 0), ("items", .list [])]⟩, [("other", PyVal.str "o")]) := by
  refine ⟨rfl, upsert_frame_and_empty.1 [("other", PyVal.str "o")]
      [⟨"a", "", "", "", "", "", "", "", "", []⟩]
      [("other", PyVal.str "o"), ("a", Item.toPyVal ⟨"a", "", "", "", "", "", "", "", "", []⟩)]
      rfl "other" (by decide),
    upsert_frame_and_empty.2.2.1 _,
    upsert_frame_and_empty.2.2.2 "T" 10 _ 0 _ _ (by decide) (by decide) rfl⟩

/-! ### Claim C3 -/

/-- C3 counterexample: a transport failure (any fetch exception other than
`requests.HTTPError`) is answered with status 500, not 502 — only a
non-success HTTP status reaches the 502 branch. -/
theorem handler_transport_error_status_cex :
    (lambda_handler "T" false 10 (.otherError "connection reset")
      (fun i => "u" ++ natToString i) 0 Option.none []).1.statusCode = 500 ∧
    (500 : Nat) ≠ 502 :=
  ⟨rfl, by decide⟩

/-- C3 (corrected): missing table configuration answers 500/CONFIG_ERROR;
a non-success HTTP status from the feature service answers
502/FETCH_ERROR; any other fetch failure (transport error, JSON decode
error) answers 500/FETCH_ERROR, not 502; a store-level failure of the
write phase answers 500/DDB_ERROR; and a fully successful run answers 200
with a body holding `count` and the list of records written. -/
theorem handler_status_mapping :
    (∀ (pre : Bool) (limit : Int) (fo : FetchOutcome) (fr : Nat → String) (psz : Nat)
      (serr : Option String) (st : Store),
      lambda_handler "" pre limit fo fr psz serr st
        = (⟨500, [("error", .str "CONFIG_ERROR"), ("message", .str configMessage)]⟩, st)) ∧
    (∀ (tb : String) (pre : Bool) (limit : Int) (d : String) (fr : Nat → String) (psz : Nat)
      (serr : Option String) (st : Store), tb ≠ "" →
      lambda_handler tb pre limit (.httpError d) fr psz serr st
        = (⟨502, [("error", .str "FETCH_ERROR"), ("detail", .str d)]⟩, st)) ∧
    (∀ (tb : String) (pre : Bool) (limit : Int) (d : String) (fr : Nat → String) (psz : Nat)
      (serr : Option String) (st : Store), tb ≠ "" →
      lambda_handler tb pre limit (.otherError d) fr psz serr st
        = (⟨500, [("error", .str "FETCH_ERROR"), ("detail", .str d)]⟩, st)) ∧
    (∀ (tb : String) (pre : Bool) (limit : Int) (data : PyVal) (fr : Nat → String) (psz : Nat)
      (e : String) (st : Store), tb ≠ "" →
      lambda_handler tb pre limit (.success data) fr psz (some e) st
        = (⟨500, [("error", .str "DDB_ERROR"), ("detail", .str e)]⟩, st)) ∧
    (∀ (tb : String) (pre : Bool) (limit : Int) (data : PyVal) (fr : Nat → String) (psz : Nat)
      (st st2 : Store), tb ≠ "" →
      upsert_items (if pre then clear_table_by_ids st (scan_all_ids psz st) else st)
        (fetch_latest_sismos limit fr data) = .ok st2 →
      lambda_handler tb pre limit (.success data) fr psz Option.none st
        = (⟨200, [("count", .int ((fetch_latest_sismos limit fr data).length : Int)),
            ("items", .list ((fetch_latest_sismos limit fr data).map Item.toPyVal))]⟩, st2)) := by
  refine ⟨handler_config_eq, ?_, ?_, ?_, ?_⟩
  · intro tb pre limit d fr psz serr st htb
    exact handler_http_eq tb pre limit d fr psz serr st htb
  · intro tb pre limit d fr psz serr st htb
    exact handler_other_eq tb pre limit d fr psz serr st htb
  · intro tb pre limit data fr psz e st htb
    exact handler_storeerr_eq tb pre limit data fr psz e st htb
  · intro tb pre limit data fr psz st st2 htb hok
    exact handler_success_eq tb pre limit data fr psz st st2 htb hok

/-- C3 witness: the five response shapes instantiated on concrete inputs:
missing configuration, HTTP-status failure, transport failure, injected
store failure, and a successful zero-feature run. -/
theorem handler_status_mapping_witness :
    lambda_handler "" false 10 (.httpError "x") (fun i => "u" ++ natToString i) 0 Option.none []
      = (⟨500, [("error", .str "CONFIG_ERROR"), ("message", .str configMessage)]⟩, []) ∧
    lambda_handler "T" false 10 (.httpError "bad status") (fun i => "u" ++ natToString i) 0
        Option.none []
      = (⟨502, [("error", .str "FETCH_ERROR"), ("detail", .str "bad status")]⟩, []) ∧
    lambda_handler "T" false 10 (.otherError "connection timeout")
        (fun i => "u" ++ natToString i) 0 Option.none []
      = (⟨500, [("error", .str "FETCH_ERROR"), ("detail", .str "connection timeout")]⟩, []) ∧
    lambda_handler "T" false 10 (.success (.dict [("features", .list [])]))
        (fun i => "u" ++ natToString i) 0 (some "throttled") []
      = (⟨500, [("error", .str "DDB_ERROR"), ("detail", .str "throttled")]⟩, []) ∧
    lambda_handler "T" false 10 (.success (.dict [("features", .list [])]))
        (fun i => "u" ++ natToString i) 0 Option.none []
      = (⟨200, [("count", .int ((fetch_latest_sismos 10 (fun i => "u" ++ natToString i)
            (.dict [("features", .list [])])).length : Int)),
          ("items", .list ((fetch_latest_sismos 10 (fun i => "u" ++ natToString i)
            (.dict [("features", .list [])])).map Item.toPyVal))]⟩, []) := by
  refine ⟨handler_status_mapping.1 false 10 _ _ 0 Option.none [],
    handler_status_mapping.2.1 "T" false 10 "bad status" _ 0 Option.none [] (by decide),
    handler_status_mapping.2.2.1 "T" false 10 "connection timeout" _ 0 Option.none [] (by decide),
    handler_status_mapping.2.2.2.1 "T" false 10 _ _ 0 "throttled" [] (by decide),
    handler_status_mapping.2.2.2.2 "T" false 10 _ _ 0 [] [] (by decide) rfl⟩

/-! ### Claim C10 -/

/-- C10 (confirmed): a record carrying a boolean leaf (here inside `raw`)
makes the pre-write conversion raise — `isinstance(True, int)` holds, so
`Decimal(str(True))` is attempted and `InvalidOperation` is raised — and
the invocation is answered with the 500/DDB_ERROR store-error response
instead of succeeding. -/
theorem bool_leaf_write_fails :
    lambda_handler "T" false 10 (.success (.dict [("features", .list [.dict [("properties",
      .dict [("flag", .bool true)])]])])) (fun i => "u" ++ natToString i) 0 Option.none []
      = (⟨500, [("error", .str "DDB_ERROR"), ("detail", .str "InvalidOperation: True")]⟩, []) ∧
    convert_numbers (.bool true) = .error "InvalidOperation: True" :=
  ⟨rfl, rfl⟩

/-! ### Claim C7 -/

mutual

theorem convert_ok : (v : PyVal) → noBool v = true → wfFloats v = true →
    ∃ w, convert_numbers v = .ok w ∧ Converted v w
  | .none, _, _ => ⟨.none, rfl, .none⟩
  | .bool _, hb, _ => by simp [noBool] at hb
  | .int n, _, _ => ⟨.dec ⟨n, 0⟩, rfl, .int n⟩
  | .float s, _, hw => by
    simp only [wfFloats] at hw
    cases hparse : decimalParse s with
    | none => rw [hparse] at hw; simp at hw
    | some d =>
      exact ⟨.dec d, by simp [convert_numbers, hparse], .float s d hparse⟩
  | .str s, _, _ => ⟨.str s, rfl, .str s⟩
  | .dec d, _, _ => ⟨.dec d, rfl, .dec d⟩
  | .list xs, hb, hw => by
    rcases convertList_ok xs (by simpa [noBool] using hb) (by simpa [wfFloats] using hw)
      with ⟨ys, h1, h2⟩
    exact ⟨.list ys, by simp [convert_numbers, h1], .list xs ys h2⟩
  | .dict kvs, hb, hw => by
    rcases convertKVs_ok kvs (by simpa [noBool] using hb) (by simpa [wfFloats] using hw)
      with ⟨cvs, h1, h2⟩
    exact ⟨.dict cvs, by simp [convert_numbers, h1], .dict kvs cvs h2⟩

theorem convertList_ok : (xs : List PyVal) → noBoolList xs = true → wfFloatsList xs = true →
    ∃ ys, convertList xs = .ok ys ∧ ConvertedList xs ys
  | [], _, _ => ⟨[], rfl, .nil⟩
  | v :: vs, hb, hw => by
    simp only [noBoolList, Bool.and_eq_true] at hb
    simp only [wfFloatsList, Bool.and_eq_true] at hw
    rcases convert_ok v hb.1 hw.1 with ⟨w, h1, h2⟩
    rcases convertList_ok vs hb.2 hw.2 with ⟨ws, h3, h4⟩
    exact ⟨w :: ws, by simp [convertList, h1, h3], .cons v w vs ws h2 h4⟩

theorem convertKVs_ok : (kvs : List (String × PyVal)) → noBoolKVs kvs = true →
    wfFloatsKVs kvs = true →
    ∃ cvs, convertKVs kvs = .ok cvs ∧ ConvertedKVs kvs cvs
  | [], _, _ => ⟨[], rfl, .nil⟩
  | (k, v) :: r, hb, hw => by
    simp only [noBoolKVs, Bool.and_eq_true] at hb
    simp only [wfFloatsKVs, Bool.and_eq_true] at hw
    rcases convert_ok v hb.1 hw.1 with ⟨w, h1, h2⟩
    rcases convertKVs_ok r hb.2 hw.2 with ⟨cvs, h3, h4⟩
    exact ⟨(k, w) :: cvs, by simp [convertKVs, h1, h3], .cons k v w r cvs h2 h4⟩

end

/-- C7 counterexample: a boolean leaf neither converts to an exact decimal
nor passes through unchanged — `convert_numbers` raises on it, because
Python counts `bool` as numeric and `Decimal("True")` is invalid. -/
theorem convert_numbers_bool_cex :
    convert_numbers (.dict [("flag", .bool true)]) = .error "InvalidOperation: True" ∧
    (Except.error "InvalidOperation: True" : Except String PyVal)
      ≠ .ok (.dict [("flag", .bool true)]) :=
  ⟨rfl, by simp⟩

/-- C7 (corrected): on every value free of boolean leaves (and with real
float reprs), the pre-write conversion succeeds and rewrites the tree
shape-preservingly: an int leaf `n` becomes the exact decimal `n` (whose
value equals the decimal denoted by `str(n)`), a float leaf becomes the
exact decimal its repr string denotes, and string and null leaves pass
through unchanged; boolean leaves, counted as numeric by `isinstance`,
instead make the conversion raise (see the counterexample). -/
theorem convert_numbers_exact (v : PyVal) (hb : noBool v = true) (hw : wfFloats v = true) :
    (∃ w, convert_numbers v = .ok w ∧ Converted v w) ∧
    (∀ n : Int, convert_numbers (.int n) = .ok (.dec ⟨n, 0⟩) ∧
      (DecVal.mk n 0).toRat = (n : ℚ)) ∧
    (∀ s : String, convert_numbers (.str s) = .ok (.str s)) := by
  refine ⟨convert_ok v hb hw, ?_, fun s => rfl⟩
  intro n
  refine ⟨rfl, ?_⟩
  simp [DecVal.toRat]

/-- C7 witness: instantiated on a record-like dict holding an int, a float
and a string leaf; the conversion succeeds with the related output and an
int conversion preserves the exact value. -/
theorem convert_numbers_exact_witness :
    (∃ w, convert_numbers (.dict [("a", .int 3), ("b", .float "4.5"), ("c", .str "x")])
        = .ok w ∧
      Converted (.dict [("a", .int 3), ("b", .float "4.5"), ("c", .str "x")]) w) ∧
    convert_numbers (.str "hello") = .ok (.str "hello") ∧
    convert_numbers (.int 3) = .ok (.dec ⟨3, 0⟩) := by
  have h := convert_numbers_exact (.dict [("a", .int 3), ("b", .float "4.5"), ("c", .str "x")])
    (by decide) (by decide)
  exact ⟨h.1, h.2.2 "hello", (h.2.1 3).1⟩

end ScrapTable
